import Mathlib

/-!
Shallow embedding of the ESP32 industrial-monitoring sketch
(src/sensor_monitoring.ino) and proofs about its sampling, alerting,
scheduling and reporting behaviour.

Modelling conventions:
* C floats holding sensor values are modelled as exact rationals.
  A failed DHT read (NaN) is modelled as Option.none.
* C integer arithmetic is modelled on unbounded integers with explicit
  twos-complement wraparound where the machine width matters
  (int16_t storage, 32-bit int promotion in the vibration sum).
* Float-to-integer conversion truncates toward zero; on an exact
  rational num/den with positive denominator this is Int.tdiv.
-/

namespace SensorMonitoring

/-- Narrowing of an integer into the signed 16-bit domain of int16_t,
modelled as twos-complement wraparound (values in [-32768, 32767]); used
for the assignments into the globals ax, ay, az, gx, gy, gz. -/
def toInt16 (n : ℤ) : ℤ := (n + 32768) % 65536 - 32768

/-- 32-bit signed wraparound, modelling arithmetic carried out in the C
type int on the target (signed overflow realised as twos-complement
wraparound, as the target toolchain does at runtime). -/
def i32wrap (n : ℤ) : ℤ := (n + 2147483648) % 4294967296 - 2147483648

/-- intervaloLeitura = 2000 ms, the fixed sampling interval (source line 21). -/
def intervaloLeitura : ℕ := 2000

/-- The four alert kinds fired by analisarDados, in source order. -/
inductive Alert
  | HighTemperature
  | HighHumidity
  | LowLight
  | ExcessiveVibration
  deriving DecidableEq

/-- The sensor-reading globals of the sketch: temperatura, umidade,
luminosidade are C floats (modelled as exact rationals); the six motion
channels are int16_t values (source lines 19-20). -/
structure Sample where
  temperatura : ℚ
  umidade : ℚ
  luminosidade : ℚ
  ax : ℤ
  ay : ℤ
  az : ℤ
  gx : ℤ
  gy : ℤ
  gz : ℤ
  deriving DecidableEq

/-- Arduino map(x, in_min, in_max, out_min, out_max):
(x - in_min) * (out_max - out_min) / (in_max - in_min) + out_min over the
C type long, whose division truncates toward zero (Int.tdiv). -/
def arduinoMap (x inMin inMax outMin outMax : ℤ) : ℤ :=
  ((x - inMin) * (outMax - outMin)).tdiv (inMax - inMin) + outMin

/-- luminosidade = map(valorLDR, 0, 4095, 0, 100) (source line 78). -/
def lightPct (valorLDR : ℤ) : ℤ := arduinoMap valorLDR 0 4095 0 100

/-- The exact value of x * 1000 truncated toward zero.  As an unreduced
fraction x * 1000 = (1000 * x.num) / x.den with positive denominator, and
truncation toward zero of such a fraction is Int.tdiv of numerator by
denominator (proved below against the Mathlib floor/ceil notions). -/
def truncScale1000 (x : ℚ) : ℤ := (1000 * x.num).tdiv (x.den : ℤ)

/-- The conversions ax = a.acceleration.x * 1000; and the five analogous
ones (source lines 86-90): scale by 1000, convert float to integer
(truncation toward zero), store into an int16_t (narrowing modelled as
twos-complement wraparound). -/
def motionToMilli (x : ℚ) : ℤ := toInt16 (truncScale1000 x)

/-- One cycle of raw sensor inputs.  dhtTemp and dhtHumid model
dht.readTemperature() and dht.readHumidity(), with none standing for the
NaN the DHT library returns on a failed or out-of-range read; valorLDR
models analogRead(LDR_PIN); the six rationals model the float outputs of
mpu.getEvent. -/
structure SensorReadings where
  dhtTemp : Option ℚ
  dhtHumid : Option ℚ
  valorLDR : ℤ
  accelX : ℚ
  accelY : ℚ
  accelZ : ℚ
  gyroX : ℚ
  gyroY : ℚ
  gyroZ : ℚ

/-- coletarDados() (source lines 64-91): when either climate read is NaN
the diagnostic "Erro na leitura do DHT22" is printed and both climate
globals are forced to 0; the LDR raw value is rescaled with map; the six
motion floats are scaled to milli-units and stored into int16_t.  The
result is the populated globals plus the list of diagnostic lines
printed during collection. -/
def coletarDados (r : SensorReadings) : Sample × List String :=
  let dhtFail := r.dhtTemp.isNone || r.dhtHumid.isNone
  ({ temperatura := if dhtFail then 0 else r.dhtTemp.getD 0
     umidade := if dhtFail then 0 else r.dhtHumid.getD 0
     luminosidade := ((lightPct r.valorLDR : ℤ) : ℚ)
     ax := motionToMilli r.accelX
     ay := motionToMilli r.accelY
     az := motionToMilli r.accelZ
     gx := motionToMilli r.gyroX
     gy := motionToMilli r.gyroY
     gz := motionToMilli r.gyroZ },
   if dhtFail then ["Erro na leitura do DHT22"] else [])

/-- The C expression ax*ax + ay*ay + az*az (source line 150): the int16_t
operands promote to 32-bit int; each square fits (32767 squared is below
2^31) but the sum of three squares can exceed 2^31 - 1, realised as
wraparound. -/
def vibSum32 (s : Sample) : ℤ := i32wrap (s.ax * s.ax + s.ay * s.ay + s.az * s.az)

/-- The test sqrt(ax*ax + ay*ay + az*az) > 2000 (source lines 150-152).
For a nonnegative integer argument v (exactly representable in double,
sqrt correctly rounded and monotone, 2000 * 2000 = 4000000 exact) the
comparison sqrt v > 2000 holds iff v > 4000000; for a negative
(overflowed) argument sqrt returns NaN and the comparison is false,
which also matches v > 4000000 being false.  So the branch condition is
equivalent to the integer comparison below. -/
def vibracaoFires (s : Sample) : Bool := decide (4000000 < vibSum32 s)

/-- analisarDados() (source lines 134-153): the four threshold rules, in
source order, each evaluated independently against the same globals. -/
def analisarDados (s : Sample) : List Alert :=
  (if s.temperatura > 35 then [Alert.HighTemperature] else []) ++
  (if s.umidade > 80 then [Alert.HighHumidity] else []) ++
  (if s.luminosidade < 10 then [Alert.LowLight] else []) ++
  (if vibracaoFires s then [Alert.ExcessiveVibration] else [])

/-- The fixed alert line printed for each alert kind. -/
def alertMessage : Alert → String
  | Alert.HighTemperature => "⚠️  ALERTA: Temperatura elevada!"
  | Alert.HighHumidity => "⚠️  ALERTA: Umidade muito alta!"
  | Alert.LowLight => "⚠️  ALERTA: Luminosidade muito baixa!"
  | Alert.ExcessiveVibration => "⚠️  ALERTA: Vibração excessiva detectada!"

/-- Two fractional digits as printed digit-by-digit by Arduino
Print::printFloat, so a leading zero is kept. -/
def pad2 (m : ℕ) : String := if m < 10 then "0" ++ toString m else toString m

/-- The scaled integer behind Serial.print(value, 2) on a nonnegative
value: Print::printFloat adds a rounding term of 0.005 and then prints
the truncated integer part and two truncated fractional digits, which on
an exact value amounts to printing trunc(100 * q + 1/2) split into
integer part and two digits.  As an unreduced fraction
100 * q + 1/2 = (200 * q.num + q.den) / (2 * q.den) with positive
denominator, so the truncation is Int.tdiv of those. -/
def printScaled (q : ℚ) : ℕ :=
  ((200 * q.num + (q.den : ℤ)).tdiv (2 * (q.den : ℤ))).toNat

/-- Serial.print(value, 2) for a nonnegative value: integer part, a dot,
two fractional digits. -/
def printFloat2Core (q : ℚ) : String :=
  toString (printScaled q / 100) ++ "." ++ pad2 (printScaled q % 100)

/-- Serial.print(value, 2): a leading minus sign for negative values,
then the nonnegative rendering of the absolute value. -/
def printFloat2 (q : ℚ) : String :=
  if q < 0 then "-" ++ printFloat2Core (-q) else printFloat2Core q

/-- The machine-parsable CSV line printed by exibirDados (source lines
95-115): millis()/1000, then the two-decimal floats, then the six plain
integers, comma-separated. -/
def recordLine (ms : ℕ) (s : Sample) : String :=
  toString (ms / 1000) ++ "," ++ printFloat2 s.temperatura ++ "," ++
  printFloat2 s.umidade ++ "," ++ printFloat2 s.luminosidade ++ "," ++
  toString s.ax ++ "," ++ toString s.ay ++ "," ++ toString s.az ++ "," ++
  toString s.gx ++ "," ++ toString s.gy ++ "," ++ toString s.gz

/-- exibirDados() (source lines 93-131) as the list of lines printed:
the CSV record, the fixed human-readable block, the alert lines produced
by analisarDados, and the closing separator. -/
def exibirDados (ms : ℕ) (s : Sample) : List String :=
  [recordLine ms s,
   "--- Leitura dos Sensores ---",
   "Ambiente:",
   "  Temperatura: " ++ printFloat2 s.temperatura ++ "°C",
   "  Umidade: " ++ printFloat2 s.umidade ++ "%",
   "  Luminosidade: " ++ printFloat2 s.luminosidade ++ "%",
   "Vibração/Movimento (MPU6050):",
   "  Aceleração (mg): X=" ++ toString s.ax ++ ", Y=" ++ toString s.ay ++
     ", Z=" ++ toString s.az,
   "  Giroscópio (mdps): X=" ++ toString s.gx ++ ", Y=" ++ toString s.gy ++
     ", Z=" ++ toString s.gz]
  ++ (analisarDados s).map alertMessage
  ++ ["================================"]

/-- loop() (source lines 51-62) under a mock clock: each iteration reads
millis() (the now argument), fires one cycle and sets ultimaLeitura to
now when now - ultimaLeitura >= intervaloLeitura, then delay(100)
advances the clock by 100 ms.  The mock clock is monotone from 0 and
ultimaLeitura is always an earlier poll value, so the unsigned 32-bit
subtraction of the source is exact truncated subtraction here.  The
result is the list of firing times. -/
def schedIter : ℕ → ℕ → ℕ → List ℕ
  | 0, _, _ => []
  | n + 1, now, ultima =>
    if now - ultima ≥ intervaloLeitura then
      now :: schedIter n (now + 100) now
    else
      schedIter n (now + 100) ultima

/-! ### Helper lemmas -/

/-- A conditional singleton is a sublist of the singleton. -/
theorem ite_singleton_sublist (c : Prop) [Decidable c] (x : Alert) :
    List.Sublist (if c then [x] else []) [x] := by
  split_ifs
  · exact List.Sublist.refl _
  · exact List.nil_sublist _

/-- Truncation of 1000 * x agrees with the floor when x is nonnegative. -/
theorem truncScale1000_floor (x : ℚ) (hx : 0 ≤ x) :
    truncScale1000 x = ⌊x * 1000⌋ := by
  have hrw : x * 1000 = ((1000 * x.num : ℤ) : ℚ) / ((x.den : ℕ) : ℚ) := by
    conv_lhs => rw [← Rat.num_div_den x]
    push_cast
    ring
  have hnum : (0 : ℤ) ≤ 1000 * x.num :=
    mul_nonneg (by norm_num) (Rat.num_nonneg.mpr hx)
  rw [hrw, Rat.floor_intCast_div_natCast, truncScale1000,
    Int.tdiv_eq_ediv hnum (Int.ofNat_nonneg _)]

/-- Truncation of 1000 * x agrees with the ceiling when x is negative. -/
theorem truncScale1000_ceil (x : ℚ) (hx : x < 0) :
    truncScale1000 x = ⌈x * 1000⌉ := by
  have hneg : truncScale1000 (-x) = ⌊(-x) * 1000⌋ :=
    truncScale1000_floor (-x) (by linarith)
  have hflip : truncScale1000 (-x) = -truncScale1000 x := by
    unfold truncScale1000
    rw [Rat.neg_num, Rat.neg_den, mul_neg, Int.neg_tdiv]
  have hceil : ⌈x * 1000⌉ = -⌊-(x * 1000)⌋ := by
    rw [Int.floor_neg]
    ring
  rw [hceil, show -(x * 1000) = (-x) * 1000 by ring, ← hneg, hflip]
  ring

/-- The scaled integer behind printFloat2Core is trunc(100 q + 1/2) for
nonnegative q (the Arduino rounding-then-truncation step). -/
theorem printScaled_eq_floor (q : ℚ) (hq : 0 ≤ q) :
    (printScaled q : ℤ) = ⌊q * 100 + 1 / 2⌋ := by
  have hrw : q * 100 + 1 / 2 =
      ((200 * q.num + (q.den : ℤ) : ℤ) : ℚ) / ((2 * q.den : ℕ) : ℚ) := by
    conv_lhs => rw [← Rat.num_div_den q]
    push_cast
    have hden : ((q.den : ℚ)) ≠ 0 := by
      exact_mod_cast q.den_ne_zero
    field_simp
    ring
  have hnum : (0 : ℤ) ≤ 200 * q.num + (q.den : ℤ) := by
    have h1 : (0 : ℤ) ≤ q.num := Rat.num_nonneg.mpr hq
    have h2 : (0 : ℤ) ≤ (q.den : ℤ) := Int.ofNat_nonneg _
    linarith
  have htd : (200 * q.num + (q.den : ℤ)).tdiv (2 * (q.den : ℤ)) =
      (200 * q.num + (q.den : ℤ)) / (2 * (q.den : ℤ)) :=
    Int.tdiv_eq_ediv hnum (by positivity)
  rw [hrw, Rat.floor_intCast_div_natCast, printScaled, htd,
    Int.toNat_of_nonneg (Int.ediv_nonneg hnum (by positivity))]
  push_cast
  rfl

/-- Rendering an integer-valued rational: the fractional digits are 00. -/
theorem printFloat2_intCast (n : ℤ) (hn : 0 ≤ n) :
    printFloat2 ((n : ℤ) : ℚ) = toString n ++ ".00" := by
  obtain ⟨m, rfl⟩ := Int.eq_ofNat_of_zero_le hn
  have hnotneg : ¬ (((m : ℤ) : ℚ) < 0) := by
    push_cast
    exact not_lt.mpr (by positivity)
  rw [printFloat2, if_neg hnotneg, printFloat2Core]
  have hscaled : printScaled ((m : ℤ) : ℚ) = 100 * m := by
    unfold printScaled
    rw [Rat.num_intCast, Rat.den_intCast]
    have : (200 * (m : ℤ) + ((1 : ℕ) : ℤ)).tdiv (2 * ((1 : ℕ) : ℤ)) =
        (200 * (m : ℤ) + ((1 : ℕ) : ℤ)) / (2 * ((1 : ℕ) : ℤ)) :=
      Int.tdiv_eq_ediv (by positivity) (by norm_num)
    rw [this]
    omega
  rw [hscaled]
  have h1 : 100 * m / 100 = m := by omega
  have h2 : 100 * m % 100 = 0 := by omega
  rw [h1, h2]
  have e1 : toString ((m : ℕ) : ℤ) = toString m := rfl
  rw [e1, String.append_assoc]
  have e2 : ("." ++ pad2 0 : String) = ".00" := by decide
  rw [e2]

/-- Two-digit fractional rendering: always exactly two digit characters. -/
theorem pad2_spec : ∀ m : ℕ, m < 100 →
    (pad2 m).length = 2 ∧ (pad2 m).data.all Char.isDigit = true := by
  decide

/-- lightPct as euclidean division (the operands are nonnegative). -/
theorem lightPct_eq_ediv (raw : ℤ) (h0 : 0 ≤ raw) :
    lightPct raw = raw * 100 / 4095 := by
  unfold lightPct arduinoMap
  norm_num
  rw [Int.tdiv_eq_ediv (by positivity) (by norm_num)]

/-- Closed form of the scheduler run: from a poll index i and a last-fire
multiple a with 20a ≤ i ≤ 20a + 20, the firing times are the successive
multiples of 2000 ms after 2000a that fall inside the run. -/
theorem schedIter_closed (n : ℕ) : ∀ a i : ℕ, 20 * a ≤ i → i ≤ 20 * a + 20 →
    schedIter n (100 * i) (2000 * a) =
      (List.range ((i + n - 1) / 20 - a)).map (fun j => 2000 * (a + 1 + j)) := by
  induction n with
  | zero =>
    intro a i h1 h2
    have hz : (i - 1) / 20 - a = 0 := by omega
    simp [schedIter, hz]
  | succ n ih =>
    intro a i h1 h2
    by_cases hfire : i = 20 * a + 20
    · subst hfire
      have hcond : 100 * (20 * a + 20) - 2000 * a ≥ intervaloLeitura := by
        simp only [intervaloLeitura]
        omega
      rw [schedIter, if_pos hcond]
      have e1 : 100 * (20 * a + 20) + 100 = 100 * ((20 * a + 20) + 1) := by ring
      have e2 : 100 * (20 * a + 20) = 2000 * (a + 1) := by ring
      rw [e1, e2, ih (a + 1) (20 * a + 20 + 1) (by omega) (by omega)]
      have hK : ((20 * a + 20) + (n + 1) - 1) / 20 - a =
          ((20 * a + 20 + 1 + n - 1) / 20 - (a + 1)) + 1 := by omega
      rw [hK, List.range_succ_eq_map, List.map_cons, List.map_map]
      refine congrArg₂ List.cons (by ring) ?_
      refine List.map_congr_left fun j _ => ?_
      simp only [Function.comp, Nat.succ_eq_add_one]
      omega
    · have hcond : ¬ (100 * i - 2000 * a ≥ intervaloLeitura) := by
        simp only [intervaloLeitura]
        omega
      rw [schedIter, if_neg hcond]
      have e1 : 100 * i + 100 = 100 * (i + 1) := by ring
      rw [e1, ih a (i + 1) (by omega) (by omega)]
      have hK : (i + 1 + n - 1) / 20 - a = (i + (n + 1) - 1) / 20 - a := by omega
      rw [hK]

/-- The run from boot: firing times are 2000, 4000, 6000, ... -/
theorem schedIter_from_boot (n : ℕ) :
    schedIter n 0 0 =
      (List.range ((n - 1) / 20)).map (fun j => 2000 * (1 + j)) := by
  have h := schedIter_closed n 0 0 (by omega) (by omega)
  simpa using h

/-! ### Claim theorems -/

/-- C1: the claim states that the vibration squares are widened to 64
bits so that no Sample overflows a 32-bit signed domain, and that
ExcessiveVibration fires exactly when sqrt of the sum exceeds 2000.  The
code computes the sum in 32-bit int: at the int16 extremes
ax = ay = az = 32767 the mathematical sum 3221028867 exceeds 2^31 - 1,
the 32-bit value wraps to a negative number and the alert does not fire
even though the true magnitude sqrt 3221028867 exceeds 2000.  The two
concrete spec vectors (1200,1200,1200 fires; 500,500,500 does not) do
hold. -/
theorem C1_vibration_overflow :
    (32767 : ℤ) * 32767 + 32767 * 32767 + 32767 * 32767 = 3221028867 ∧
    (2147483647 : ℤ) < 3221028867 ∧
    vibSum32 (⟨25, 50, 50, 32767, 32767, 32767, 0, 0, 0⟩ : Sample) = -1073938429 ∧
    Alert.ExcessiveVibration ∉
      analisarDados (⟨25, 50, 50, 32767, 32767, 32767, 0, 0, 0⟩ : Sample) ∧
    (2000 : ℝ) < Real.sqrt 3221028867 ∧
    Alert.ExcessiveVibration ∈
      analisarDados (⟨25, 50, 50, 1200, 1200, 1200, 0, 0, 0⟩ : Sample) ∧
    Alert.ExcessiveVibration ∉
      analisarDados (⟨25, 50, 50, 500, 500, 500, 0, 0, 0⟩ : Sample) := by
  refine ⟨by norm_num, by norm_num, by decide, by decide, ?_, by decide, by decide⟩
  rw [show (2000 : ℝ) = Real.sqrt (2000 ^ 2) by
    rw [Real.sqrt_sq (by norm_num)]]
  exact Real.sqrt_lt_sqrt (by positivity) (by norm_num)

/-- C2: when a climate read is invalid (NaN from the transducer, modelled
as none) both climate fields are forced to 0 (rendered 0.00), the
sensor-fault diagnostic "Erro na leitura do DHT22" is emitted and differs
from every alert line, and the cycle still produces the full record and
report. -/
theorem C2_invalid_climate_degrades (r : SensorReadings) (ms : ℕ)
    (h : r.dhtTemp = none ∨ r.dhtHumid = none) :
    (coletarDados r).1.temperatura = 0 ∧
    (coletarDados r).1.umidade = 0 ∧
    (coletarDados r).2 = ["Erro na leitura do DHT22"] ∧
    (∀ a : Alert, alertMessage a ≠ "Erro na leitura do DHT22") ∧
    printFloat2 (coletarDados r).1.temperatura = "0.00" ∧
    printFloat2 (coletarDados r).1.umidade = "0.00" ∧
    (exibirDados ms (coletarDados r).1).head? =
      some (recordLine ms (coletarDados r).1) ∧
    (exibirDados ms (coletarDados r).1).getLast? =
      some "================================" := by
  have hfail : (r.dhtTemp.isNone || r.dhtHumid.isNone) = true := by
    rcases h with h | h <;> simp [h]
  refine ⟨?_, ?_, ?_, ?_, ?_, ?_, ?_, ?_⟩
  · simp [coletarDados, hfail]
  · simp [coletarDados, hfail]
  · simp [coletarDados, hfail]
  · intro a
    cases a <;> decide
  · have ht : (coletarDados r).1.temperatura = 0 := by simp [coletarDados, hfail]
    rw [ht]
    decide
  · have hu : (coletarDados r).1.umidade = 0 := by simp [coletarDados, hfail]
    rw [hu]
    decide
  · rfl
  · exact List.getLast?_concat _

/-- C3: analisarDados checks the four rules in the fixed order
HighTemperature, HighHumidity, LowLight, ExcessiveVibration, so every
alert list is a sublist of that four-element sequence, and the Sample
with temp 36, humid 85, light 5, accel (2500, 0, 0), gyro (0, 0, 0)
yields all four kinds in exactly that order. -/
theorem C3_rule_order :
    (∀ s : Sample, List.Sublist (analisarDados s)
      [Alert.HighTemperature, Alert.HighHumidity, Alert.LowLight,
       Alert.ExcessiveVibration]) ∧
    analisarDados (⟨36, 85, 5, 2500, 0, 0, 0, 0, 0⟩ : Sample) =
      [Alert.HighTemperature, Alert.HighHumidity, Alert.LowLight,
       Alert.ExcessiveVibration] := by
  constructor
  · intro s
    show List.Sublist _ ([Alert.HighTemperature] ++ [Alert.HighHumidity] ++
      [Alert.LowLight] ++ [Alert.ExcessiveVibration])
    exact ((((ite_singleton_sublist _ _).append
      (ite_singleton_sublist _ _)).append
      (ite_singleton_sublist _ _)).append
      (ite_singleton_sublist _ _))
  · decide

/-- C4: each scalar alert threshold is a strict inequality, for every
Sample: HighTemperature fires iff temperature exceeds 35, HighHumidity
iff humidity exceeds 80, LowLight iff light is below 10; a Sample with
temperature exactly 35 (other channels benign) fires nothing, while
35.01 fires HighTemperature. -/
theorem C4_strict_thresholds :
    (∀ s : Sample,
      (Alert.HighTemperature ∈ analisarDados s ↔ 35 < s.temperatura) ∧
      (Alert.HighHumidity ∈ analisarDados s ↔ 80 < s.umidade) ∧
      (Alert.LowLight ∈ analisarDados s ↔ s.luminosidade < 10)) ∧
    analisarDados (⟨35, 50, 50, 10, 10, 1000, 0, 0, 0⟩ : Sample) = [] ∧
    Alert.HighTemperature ∈
      analisarDados (⟨Rat.divInt 3501 100, 50, 50, 10, 10, 1000, 0, 0, 0⟩ : Sample) := by
  refine ⟨fun s => ?_, by decide, by decide⟩
  unfold analisarDados
  split_ifs <;> simp_all

/-- C5: the light rescaling map(raw, 0, 4095, 0, 100) is monotone in the
raw value, and maps the input-domain minimum 0 to 0 and the maximum 4095
to 100 (truncating integer division). -/
theorem C5_light_rescale :
    (∀ r1 r2 : ℤ, 0 ≤ r1 → r1 < r2 → lightPct r1 ≤ lightPct r2) ∧
    lightPct 0 = 0 ∧ lightPct 4095 = 100 := by
  refine ⟨fun r1 r2 h1 h12 => ?_, by decide, by decide⟩
  rw [lightPct_eq_ediv r1 h1, lightPct_eq_ediv r2 (by omega)]
  exact Int.ediv_le_ediv (by norm_num)
    (mul_le_mul_of_nonneg_right (le_of_lt h12) (by norm_num))

/-- C6: the scheduler fires exactly when at least intervaloLeitura ms
have elapsed since the poll that opened the previous fire; over n
iterations of the mock-clock loop (100 ms per iteration from boot),
exactly floor(elapsed / interval) = 100 (n-1) / 2000 cycles fire, each
pair of consecutive fires separated by at least 2000 ms of simulated
time. -/
theorem C6_cadence :
    (∀ n : ℕ, (schedIter n 0 0).length = 100 * (n - 1) / 2000) ∧
    (∀ n : ℕ, List.Chain' (fun x y => x + 2000 ≤ y) (schedIter n 0 0)) := by
  constructor
  · intro n
    rw [schedIter_from_boot, List.length_map, List.length_range]
    omega
  · intro n
    rw [schedIter_from_boot]
    apply List.Pairwise.chain'
    refine List.Pairwise.map _ (fun a b hab => ?_) (List.pairwise_lt_range _)
    omega

/-- C7: the machine record is the comma-separated sequence of the ten
fields in the exact order timestamp, temperature, humidity, light, ax,
ay, az, gx, gy, gz; every float field renders with exactly two fractional
digit characters; the timestamp field is the milliseconds since boot
truncated to whole seconds. -/
theorem C7_record_format :
    (∀ (ms : ℕ) (s : Sample),
      recordLine ms s = String.intercalate ","
        [toString (ms / 1000), printFloat2 s.temperatura,
         printFloat2 s.umidade, printFloat2 s.luminosidade,
         toString s.ax, toString s.ay, toString s.az,
         toString s.gx, toString s.gy, toString s.gz]) ∧
    (∀ q : ℚ, ∃ ip fr, printFloat2 q = ip ++ "." ++ fr ∧
      fr.length = 2 ∧ fr.data.all Char.isDigit = true) ∧
    (∀ ms : ℕ, 1000 * (ms / 1000) ≤ ms ∧ ms < 1000 * (ms / 1000) + 1000) := by
  refine ⟨fun ms s => rfl, fun q => ?_, fun ms => ⟨by omega, by omega⟩⟩
  have hp := pad2_spec (printScaled (if q < 0 then -q else q) % 100)
    (Nat.mod_lt _ (by norm_num))
  by_cases hq : q < 0
  · refine ⟨"-" ++ toString (printScaled (-q) / 100),
      pad2 (printScaled (-q) % 100), ?_, ?_, ?_⟩
    · rw [printFloat2, if_pos hq, printFloat2Core]
      simp [String.append_assoc]
    · simpa [hq] using hp.1
    · simpa [hq] using hp.2
  · refine ⟨toString (printScaled q / 100), pad2 (printScaled q % 100),
      ?_, ?_, ?_⟩
    · rw [printFloat2, if_neg hq, printFloat2Core]
    · simpa [hq] using hp.1
    · simpa [hq] using hp.2

/-- C8 counterexample: the claim says every motion reading is converted
by multiplying by 1000 and truncating toward zero, but the result is
stored in an int16_t: for a gyro reading of 100 (within the configured
range of 500 degrees per second) the truncated product is 100000, which
does not fit, and the stored value differs from it. -/
theorem C8_motion_cex :
    truncScale1000 (100 : ℚ) = 100000 ∧
    motionToMilli (100 : ℚ) = -31072 ∧
    motionToMilli (100 : ℚ) ≠ truncScale1000 (100 : ℚ) ∧
    -32768 ≤ motionToMilli (100 : ℚ) ∧ motionToMilli (100 : ℚ) ≤ 32767 := by
  decide

/-- C8 amended: the conversion multiplies by 1000, truncates toward zero
(floor for nonnegative values, ceiling for negative ones) and narrows to
int16_t; the stored integer equals the plain truncated product exactly
when that product lies in [-32768, 32767]. -/
theorem C8_motion_trunc (x : ℚ)
    (h1 : -32768 ≤ truncScale1000 x) (h2 : truncScale1000 x ≤ 32767) :
    motionToMilli x = truncScale1000 x ∧
    (0 ≤ x → truncScale1000 x = ⌊x * 1000⌋) ∧
    (x < 0 → truncScale1000 x = ⌈x * 1000⌉) := by
  refine ⟨?_, fun hx => truncScale1000_floor x hx,
    fun hx => truncScale1000_ceil x hx⟩
  unfold motionToMilli toInt16
  omega

theorem C8_motion_trunc_witness :
    -32768 ≤ truncScale1000 (Rat.divInt (-10007) 10000) ∧
    truncScale1000 (Rat.divInt (-10007) 10000) ≤ 32767 ∧
    motionToMilli (Rat.divInt (-10007) 10000) =
      truncScale1000 (Rat.divInt (-10007) 10000) ∧
    truncScale1000 (Rat.divInt (-10007) 10000) = -1000 :=
  ⟨by decide, by decide,
   (C8_motion_trunc _ (by decide) (by decide)).1, by decide⟩

/-- C9: for every raw LDR value in the device range 0..4095 the stored
light percentage is a whole number in [0, 100], and rendering it with two
decimals always prints as N.00. -/
theorem C9_light_pct_whole (raw : ℤ) (h0 : 0 ≤ raw) (h4 : raw ≤ 4095) :
    0 ≤ lightPct raw ∧ lightPct raw ≤ 100 ∧
    printFloat2 ((lightPct raw : ℤ) : ℚ) = toString (lightPct raw) ++ ".00" := by
  have he : lightPct raw = raw * 100 / 4095 := lightPct_eq_ediv raw h0
  have hlo : 0 ≤ lightPct raw := by rw [he]; omega
  have hhi : lightPct raw ≤ 100 := by rw [he]; omega
  exact ⟨hlo, hhi, printFloat2_intCast _ hlo⟩

theorem C9_light_pct_whole_witness :
    (0 : ℤ) ≤ 2000 ∧ (2000 : ℤ) ≤ 4095 ∧
    printFloat2 ((lightPct 2000 : ℤ) : ℚ) = toString (lightPct 2000) ++ ".00" :=
  ⟨by decide, by decide, (C9_light_pct_whole 2000 (by decide) (by decide)).2.2⟩

/-- C10: alert evaluation never reads the gyroscope channels: two Samples
agreeing on temperature, humidity, light and the three accelerations
produce identical alert lists and identical alert lines, whatever their
gyro values. -/
theorem C10_gyro_independence (s1 s2 : Sample)
    (ht : s1.temperatura = s2.temperatura) (hu : s1.umidade = s2.umidade)
    (hl : s1.luminosidade = s2.luminosidade)
    (hx : s1.ax = s2.ax) (hy : s1.ay = s2.ay) (hz : s1.az = s2.az) :
    analisarDados s1 = analisarDados s2 ∧
    (analisarDados s1).map alertMessage = (analisarDados s2).map alertMessage := by
  have h : analisarDados s1 = analisarDados s2 := by
    unfold analisarDados vibracaoFires vibSum32
    rw [ht, hu, hl, hx, hy, hz]
  exact ⟨h, by rw [h]⟩

theorem C10_gyro_independence_witness :
    analisarDados (⟨36, 50, 50, 100, 0, 0, 7, 8, 9⟩ : Sample) =
      analisarDados (⟨36, 50, 50, 100, 0, 0, -5, 123, 4⟩ : Sample) :=
  (C10_gyro_independence _ _ rfl rfl rfl rfl rfl rfl).1

theorem C2_invalid_climate_degrades_witness :
    ((⟨none, some 50, 2000, 1, 1, 1, 0, 0, 0⟩ : SensorReadings).dhtTemp = none ∨
      (⟨none, some 50, 2000, 1, 1, 1, 0, 0, 0⟩ : SensorReadings).dhtHumid = none) ∧
    printFloat2 (coletarDados
      (⟨none, some 50, 2000, 1, 1, 1, 0, 0, 0⟩ : SensorReadings)).1.temperatura = "0.00" ∧
    (coletarDados (⟨none, some 50, 2000, 1, 1, 1, 0, 0, 0⟩ : SensorReadings)).2 =
      ["Erro na leitura do DHT22"] :=
  ⟨Or.inl rfl,
   (C2_invalid_climate_degrades _ 0 (Or.inl rfl)).2.2.2.2.1,
   (C2_invalid_climate_degrades _ 0 (Or.inl rfl)).2.2.1⟩

theorem C5_light_rescale_witness :
    (0 : ℤ) ≤ 5 ∧ (5 : ℤ) < 7 ∧ lightPct 5 ≤ lightPct 7 :=
  ⟨by decide, by decide, C5_light_rescale.1 5 7 (by decide) (by decide)⟩

end SensorMonitoring
